import Mathlib

/-
Shallow embedding of `src/src/execvars.c` (the execvars application).

The embedding models:
  * the errno-style result codes the program returns (Linux values);
  * the exec-variable registry: `SetupExecVar` (prepend to a singly linked
    list, driven in configuration order by `JSON_Iterate`) and the lookup
    scan inside `ExecuteVar` (`findExecVar`);
  * `ExecuteVar`, the dispatch function, including its argument checks and
    its delegation to `ExecuteCommand`;
  * `ExecuteCommand`, with its two paths: the unbounded `popen` path taken
    when `timeout_seconds <= 0`, and the bounded `popen2` + `select` loop
    taken when `timeout_seconds > 0`;
  * the startup prologue of `main` (the `argc < 3` check) and
    `ProcessOptions` over a model of `getopt("hvt:f:")`.

Interaction with the operating system is represented by an explicit
environment: the sequence of `fread` chunks a child produces, whether
`popen` / `popen2` / `fileno` succeed, and, for the bounded path, the
arrival schedule of child output relative to the `select` deadline.
Time is measured in microseconds, matching `struct timeval`
(`timeout.tv_sec = timeout_seconds; timeout.tv_usec = 0`).  On Linux,
`select` updates the `timeval` it is given to the time not slept, and the
code sets the `timeval` once, before the loop; the model reflects this by
threading the remaining budget through the loop iterations.
-/

/-- Result code EOK (0), success. -/
def EOK : Nat := 0

/-- Result code EINVAL (22), invalid arguments / I/O or wait failure. -/
def EINVAL : Nat := 22

/-- Result code ENOENT (2), not found. -/
def ENOENT : Nat := 2

/-- Result code ENOTSUP (95), operation not supported. -/
def ENOTSUP : Nat := 95

/-- Invalid variable handle sentinel `VAR_INVALID` from the varserver API.
Handles are modelled as naturals with 0 invalid. -/
def VAR_INVALID : Nat := 0

/-- Signal kind `SIG_VAR_PRINT` delivered by the variable server (external
constant from `varserver.h`; only its distinctness matters here). -/
def SIG_VAR_PRINT : Nat := 41

/-- Signal kind `SIG_VAR_MODIFIED` (external constant, distinct from
`SIG_VAR_PRINT`). -/
def SIG_VAR_MODIFIED : Nat := 42

/-- One node of the exec-variable list (C struct `ExecVar`): a variable
handle and the command string.  `pCmd` is an `Option` because the field is
a `char *` that the dispatch code checks against NULL. -/
structure ExecVar where
  hVar : Nat
  pCmd : Option String
  deriving DecidableEq, Repr

/-- The `ExecVarsState` object: verbose flag, timeout in seconds, the
configuration file name and the exec-variable list (`pExecVars`, head is
the most recently registered binding).  The varserver handle is omitted:
no modelled code path reads it. -/
structure ExecVarsState where
  verbose : Bool
  timeout_seconds : Int
  pFileName : Option String
  pExecVars : List ExecVar
  deriving DecidableEq, Repr

/-- The state after `memset(&state, 0, sizeof(state))` in `main`: all
fields zero / NULL. -/
def zeroState : ExecVarsState :=
  { verbose := false, timeout_seconds := 0, pFileName := none, pExecVars := [] }

/-- The two fields `SetupExecVar` extracts from one JSON configuration
node: the `"var"` string and the `"exec"` string, each possibly absent
(`JSON_Find` returning NULL). -/
structure JNodeM where
  varname : Option String
  exec : Option String
  deriving DecidableEq, Repr

/-- SetupExecVar (execvars.c:252): if both the `"var"` and `"exec"` fields
are present, allocate an `ExecVar`, resolve the variable name to a handle
via `VAR_FindByName` (modelled by the `resolve` function), duplicate the
command string, and prepend the node to the `pExecVars` list.  Otherwise
the state is unchanged.  Allocation (`malloc`, `strdup`) is assumed to
succeed. -/
def SetupExecVar (resolve : String → Nat) (node : JNodeM) (s : ExecVarsState) :
    ExecVarsState :=
  match node.varname, node.exec with
  | some v, some c => { s with pExecVars := ⟨resolve v, some c⟩ :: s.pExecVars }
  | _, _ => s

/-- JSON_Iterate over the `"commands"` array: apply `SetupExecVar` to each
configuration node in order. -/
def registerAll (resolve : String → Nat) : List JNodeM → ExecVarsState → ExecVarsState
  | [], s => s
  | n :: rest, s => registerAll resolve rest (SetupExecVar resolve n s)

/-- The lookup scan inside `ExecuteVar` (execvars.c:356): walk the
`pExecVars` list from the head and stop at the first node whose handle
matches (the `break` at execvars.c:376). -/
def findExecVar : List ExecVar → Nat → Option ExecVar
  | [], _ => none
  | v :: rest, h => if v.hVar = h then some v else findExecVar rest h

/-- Spec-side definition, following the specification's words for the
override-wins property: the command of the LAST registration in the
configuration sequence whose resolved handle equals `h`, or `none` if no
valid node registers `h`.  Later nodes take priority; a node registers
only when both its fields are present. -/
def lastRegisteredSpec (resolve : String → Nat) : List JNodeM → Nat → Option String
  | [], _ => none
  | n :: rest, h =>
    match lastRegisteredSpec resolve rest h with
    | some c => some c
    | none =>
      match n.varname, n.exec with
      | some v, some c => if resolve v = h then some c else none
      | _, _ => none

/-- Outcome of one `fread` on the child's pipe in the bounded loop:
`chunk data` is a read returning `data.length` bytes (0 means end of
data), `rerr` is the `n < 0` error branch of the code. -/
inductive ReadOutcome where
  | chunk (data : List Nat)
  | rerr
  deriving DecidableEq, Repr

/-- One event the environment presents to the bounded `select` loop:
either `select` itself fails (`selErr`), or child output becomes readable
`delay` microseconds after the current `select` call starts, with `r` the
outcome of the `fread` that follows.  If `delay` exceeds the remaining
budget, `select` returns 0 (timeout) instead. -/
inductive Arrival where
  | selErr
  | arrive (delay : Nat) (r : ReadOutcome)
  deriving DecidableEq, Repr

/-- State threaded through the bounded `select` loop: the `result`
variable, the chunks written to the output fd so far, whether
`kill(pid, SIGKILL)` was issued, whether the timeout was logged via
`syslog`, whether the timeout branch was taken, and the total time spent
waiting in `select` (microseconds). -/
structure BState where
  result : Nat
  output : List (List Nat)
  killed : Bool
  logged : Bool
  timedOut : Bool
  elapsed : Nat
  deriving DecidableEq, Repr

/-- The `do { select(...) ... } while (retval > 0)` loop of the bounded
path (execvars.c:577-622).  `rem` is the time left in the `timeval`
(set once before the loop to `timeout_seconds` seconds; Linux `select`
decrements it in place, so it is NOT re-armed to the full timeout between
iterations).  Cases:
  * no further arrival ever: `select` waits out `rem` and returns 0 — the
    timeout branch kills the child, logs, sets EINVAL and the loop exits;
  * `select` error: result EINVAL, loop exits (`retval < 0`);
  * data arriving after the budget is exhausted (`rem < delay`): timeout
    branch as above, and the remaining arrivals are never consumed;
  * data in time, `fread` returns `n > 0`: write the chunk to `fd` when
    `fd >= 0` and iterate with the reduced budget;
  * data in time, `fread` returns 0: end of data, result EOK, loop exits;
  * data in time, `fread` error branch (`n < 0`): result EINVAL but
    `retval` is still positive, so the loop keeps iterating. -/
def boundedLoop (fd : Int) : Nat → BState → List Arrival → BState
  | rem, st, [] =>
      { st with result := EINVAL, killed := true, logged := true,
                timedOut := true, elapsed := st.elapsed + rem }
  | _, st, .selErr :: _ => { st with result := EINVAL }
  | rem, st, .arrive d r :: rest =>
      if rem < d then
        { st with result := EINVAL, killed := true, logged := true,
                  timedOut := true, elapsed := st.elapsed + rem }
      else
        match r with
        | .chunk data =>
            if 0 < data.length then
              boundedLoop fd (rem - d)
                { st with elapsed := st.elapsed + d,
                          output := st.output ++ (if 0 ≤ fd then [data] else []) }
                rest
            else
              { st with result := EOK, elapsed := st.elapsed + d }
        | .rerr =>
            boundedLoop fd (rem - d) { st with result := EINVAL, elapsed := st.elapsed + d } rest

/-- The `do { fread ... } while (n > 0)` loop of the unbounded `popen`
path (execvars.c:540-552): the chunks actually written to `fd`.  The
environment's `uStream` lists the successive `fread` results; the loop
stops at the first empty read, and writes happen only when `fd >= 0`. -/
def unboundedReads (fd : Int) : List (List Nat) → List (List Nat)
  | [] => []
  | data :: rest =>
      if 0 < data.length then (if 0 ≤ fd then [data] else []) ++ unboundedReads fd rest
      else []

/-- Which of the two execution paths `ExecuteCommand` took. -/
inductive RunMode where
  | unbounded
  | bounded
  deriving DecidableEq, Repr

/-- Environment for one `ExecuteCommand` invocation: whether `popen`
succeeds and the `fread` chunk sequence (unbounded path); whether `popen2`
and `fileno` succeed and the arrival schedule (bounded path). -/
structure ExecEnv where
  popenOk : Bool
  uStream : List (List Nat)
  popen2Ok : Bool
  filenoOk : Bool
  arrivals : List Arrival
  deriving DecidableEq, Repr

/-- Observable outcome of one `ExecuteCommand` invocation: the returned
result code, the chunks written to `fd`, whether SIGKILL was sent, whether
the timeout was logged, whether the timeout branch was taken, whether
`pclose` was called on the command stream (pclose both closes the pipe and
reaps the child), the total time spent waiting in `select`, and the path
taken (`none` when `cmd` was NULL and neither path was entered). -/
structure CmdOutcome where
  result : Nat
  output : List (List Nat)
  killed : Bool
  logged : Bool
  timedOut : Bool
  pclosed : Bool
  elapsed : Nat
  mode : Option RunMode
  deriving DecidableEq, Repr

/-- ExecuteCommand (execvars.c:516).  NULL command: EINVAL.  Otherwise
`result = ENOENT` until a runner succeeds.  `timeout_seconds <= 0`: the
unbounded `popen` path — on `popen` success, read to end of output,
`pclose`, EOK; on `popen` failure the result stays ENOENT and `pclose` is
NOT called (it is inside the `if`).  `timeout_seconds > 0`: the bounded
`popen2` path — on NULL stream the `if` body is skipped (result stays
ENOENT); on `fileno` failure result is EINVAL; otherwise the `select`
loop runs with a budget of `timeout_seconds` seconds; in ALL bounded
cases the final `pclose(fp_in)` at execvars.c:632 runs unconditionally,
including on the NULL stream. -/
def ExecuteCommand (cmd : Option String) (fd : Int) (timeout_seconds : Int)
    (env : ExecEnv) : CmdOutcome :=
  match cmd with
  | none =>
      { result := EINVAL, output := [], killed := false, logged := false,
        timedOut := false, pclosed := false, elapsed := 0, mode := none }
  | some _ =>
      if timeout_seconds ≤ 0 then
        if env.popenOk then
          { result := EOK, output := unboundedReads fd env.uStream,
            killed := false, logged := false, timedOut := false,
            pclosed := true, elapsed := 0, mode := some .unbounded }
        else
          { result := ENOENT, output := [], killed := false, logged := false,
            timedOut := false, pclosed := false, elapsed := 0, mode := some .unbounded }
      else
        if env.popen2Ok then
          if env.filenoOk then
            let st := boundedLoop fd (1000000 * timeout_seconds.toNat)
              { result := ENOENT, output := [], killed := false, logged := false,
                timedOut := false, elapsed := 0 } env.arrivals
            { result := st.result, output := st.output, killed := st.killed,
              logged := st.logged, timedOut := st.timedOut, pclosed := true,
              elapsed := st.elapsed, mode := some .bounded }
          else
            { result := EINVAL, output := [], killed := false, logged := false,
              timedOut := false, pclosed := true, elapsed := 0, mode := some .bounded }
        else
          { result := ENOENT, output := [], killed := false, logged := false,
            timedOut := false, pclosed := true, elapsed := 0, mode := some .bounded }

/-- ExecuteVar (execvars.c:341).  Returns the result code paired with the
`ExecuteCommand` outcome when a command was actually executed (`none`
means `ExecuteCommand` was never invoked, hence no process spawned and no
bytes written).  NULL state or `VAR_INVALID` handle: EINVAL.  No matching
node: ENOENT.  Matching node with NULL command, or a signal other than
`SIG_VAR_PRINT`: ENOTSUP.  Otherwise the result of
`ExecuteCommand(pCmd, fd, pState->timeout_seconds)`. -/
def ExecuteVar (pState : Option ExecVarsState) (hVar : Nat) (sig : Nat) (fd : Int)
    (env : ExecEnv) : Nat × Option CmdOutcome :=
  match pState with
  | none => (EINVAL, none)
  | some s =>
      if hVar = VAR_INVALID then (EINVAL, none)
      else
        match findExecVar s.pExecVars hVar with
        | none => (ENOENT, none)
        | some v =>
            match v.pCmd with
            | some cmd =>
                if sig = SIG_VAR_PRINT then
                  let oc := ExecuteCommand (some cmd) fd s.timeout_seconds env
                  (oc.result, some oc)
                else (ENOTSUP, none)
            | none => (ENOTSUP, none)

/-- Recognised command-line options (`getopt` option string `"hvt:f:"`). -/
inductive CliOpt where
  | vOpt
  | hOpt
  | fOpt (arg : String)
  | tOpt (arg : String)
  | unknown
  deriving DecidableEq, Repr

/-- Model of the `getopt(argC, argV, "hvt:f:")` scan over the arguments
after the program name, for arguments given as separate tokens: `-h` and
`-v` are flags, `-f` and `-t` consume the following token as their
argument (a trailing `-f`/`-t` with no argument yields the error token
that the `default:` branch ignores); any other token is passed over. -/
def getoptArgs : List String → List CliOpt
  | [] => []
  | a :: rest =>
      if a = "-h" then .hOpt :: getoptArgs rest
      else if a = "-v" then .vOpt :: getoptArgs rest
      else if a = "-f" then
        match rest with
        | b :: rest2 => .fOpt b :: getoptArgs rest2
        | [] => [.unknown]
      else if a = "-t" then
        match rest with
        | b :: rest2 => .tOpt b :: getoptArgs rest2
        | [] => [.unknown]
      else .unknown :: getoptArgs rest

/-- Decimal digit scan of C `atoi`: accumulate leading digits, stop at the
first non-digit. -/
def atoiDigits : List Char → Nat → Nat
  | [], acc => acc
  | c :: rest, acc =>
      if c.isDigit then atoiDigits rest (10 * acc + (c.toNat - 48)) else acc

/-- C `atoi`: optional minus sign followed by leading digits; 0 when the
string starts with no digit. -/
def atoi (s : String) : Int :=
  match s.data with
  | '-' :: rest => -(Int.ofNat (atoiDigits rest 0))
  | cs => Int.ofNat (atoiDigits cs 0)

/-- The `switch` body of `ProcessOptions` (execvars.c:701-725) folded over
the recognised options.  The second component records whether `usage` was
printed.  Note the `-h` case prints usage and falls through to the next
iteration: it does NOT exit, and nothing checks that `-f` was supplied. -/
def processOpts : List CliOpt → ExecVarsState → Bool → ExecVarsState × Bool
  | [], s, u => (s, u)
  | .vOpt :: rest, s, u => processOpts rest { s with verbose := true } u
  | .hOpt :: rest, s, _ => processOpts rest s true
  | .fOpt a :: rest, s, u => processOpts rest { s with pFileName := some a } u
  | .tOpt a :: rest, s, u => processOpts rest { s with timeout_seconds := atoi a } u
  | .unknown :: rest, s, u => processOpts rest s u

/-- ProcessOptions (execvars.c:692): scan the options after the program
name and populate the state; always returns 0 to its caller, so only the
state and the usage side effect are modelled. -/
def ProcessOptions (args : List String) (s : ExecVarsState) : ExecVarsState × Bool :=
  processOpts (getoptArgs args) s false

/-- What the startup prologue of `main` does: either the process exits
with a code (recording whether usage was printed first), or it proceeds
into the configuration / event loop phase with the populated state. -/
inductive StartupResult where
  | exited (code : Nat) (usageShown : Bool)
  | proceeded (s : ExecVarsState) (usageShown : Bool)
  deriving DecidableEq, Repr

/-- The prologue of `main` (execvars.c:162-190): zero the state; if
`argc < 3`, print usage (usage prints only when `argv[0]` is non-NULL,
i.e. `argc >= 1`) and `exit(1)`; otherwise run `ProcessOptions` and
proceed.  `argv` here is the full vector including the program name, so
`argc = argv.length`. -/
def mainStartup (argv : List String) : StartupResult :=
  if argv.length < 3 then .exited 1 (argv ≠ [])
  else
    let r := ProcessOptions argv.tail zeroState
    .proceeded r.1 r.2

/-- Helper for the registry claim: scanning the list built by a sequence
of registrations finds the last registration for a handle, falling back
to the pre-existing list when the sequence never registers it. -/
lemma registerAll_find (resolve : String → Nat) :
    ∀ (nodes : List JNodeM) (s : ExecVarsState) (h : Nat),
      findExecVar (registerAll resolve nodes s).pExecVars h =
        match lastRegisteredSpec resolve nodes h with
        | some c => some ⟨h, some c⟩
        | none => findExecVar s.pExecVars h := by
  intro nodes
  induction nodes with
  | nil => intro s h; rfl
  | cons n rest ih =>
      intro s h
      simp only [registerAll, lastRegisteredSpec]
      rw [ih]
      cases hl : lastRegisteredSpec resolve rest h with
      | some c => rfl
      | none =>
          rcases n with ⟨vn, ex⟩
          cases vn with
          | none => cases ex <;> rfl
          | some v =>
              cases ex with
              | none => rfl
              | some c =>
                  simp only [SetupExecVar, findExecVar]
                  by_cases hres : resolve v = h
                  · simp [hres]
                  · simp [hres]

/-- C1: for every sequence of registered bindings, looking up a variable
id that was registered (possibly more than once) returns exactly the
command string of the last registration for that id, and looking up an id
that was never registered returns no command. -/
theorem C1_lookup_last_registration_wins (resolve : String → Nat)
    (nodes : List JNodeM) (h : Nat) :
    findExecVar (registerAll resolve nodes zeroState).pExecVars h =
      (lastRegisteredSpec resolve nodes h).map (fun c => (⟨h, some c⟩ : ExecVar)) := by
  rw [registerAll_find]
  cases lastRegisteredSpec resolve nodes h <;> rfl

/-- C2: in the bounded path, when the wait expires with no data available
before the deadline, the child is sent SIGKILL, the timeout is logged,
the invocation returns EINVAL, and no further output is forwarded after
the deadline (the remaining arrivals are discarded and the output is
exactly what was accumulated before the deadline).  Stated for the select
loop at an arbitrary point of the run (first two conjuncts) and for a
whole `ExecuteCommand` invocation whose first data would arrive after the
deadline (third conjunct). -/
theorem C2_timeout_kills_logs_einval :
    (∀ (fd : Int) (rem : Nat) (st : BState) (d : Nat) (r : ReadOutcome)
        (rest : List Arrival),
        rem < d →
        boundedLoop fd rem st (.arrive d r :: rest) =
          { st with result := EINVAL, killed := true, logged := true,
                    timedOut := true, elapsed := st.elapsed + rem }) ∧
    (∀ (fd : Int) (rem : Nat) (st : BState),
        boundedLoop fd rem st [] =
          { st with result := EINVAL, killed := true, logged := true,
                    timedOut := true, elapsed := st.elapsed + rem }) ∧
    (∀ (c : String) (fd : Int) (t : Int) (env : ExecEnv) (d : Nat)
        (r : ReadOutcome) (rest : List Arrival),
        0 < t → env.popen2Ok = true → env.filenoOk = true →
        env.arrivals = .arrive d r :: rest → 1000000 * t.toNat < d →
        ExecuteCommand (some c) fd t env =
          { result := EINVAL, output := [], killed := true, logged := true,
            timedOut := true, pclosed := true, elapsed := 1000000 * t.toNat,
            mode := some .bounded }) := by
  refine ⟨?_, ?_, ?_⟩
  · intro fd rem st d r rest hlt
    simp [boundedLoop, hlt]
  · intro fd rem st
    rfl
  · intro c fd t env d r rest ht h2 h3 harr hlt
    have hnle : ¬ t ≤ 0 := by omega
    simp [ExecuteCommand, hnle, h2, h3, harr, boundedLoop, hlt]

/-- Witness for C2 at concrete inputs. -/
theorem C2_timeout_kills_logs_einval_witness :
    boundedLoop 1 5 ⟨ENOENT, [], false, false, false, 0⟩
        [Arrival.arrive 9 (.chunk [1])] =
      ⟨EINVAL, [], true, true, true, 5⟩ ∧
    ExecuteCommand (some "sleep 5") 1 1
        ⟨true, [], true, true, [Arrival.arrive 2000000 (.chunk [1])]⟩ =
      ⟨EINVAL, [], true, true, true, true, 1000000, some .bounded⟩ := by
  constructor
  · exact C2_timeout_kills_logs_einval.1 1 5 ⟨ENOENT, [], false, false, false, 0⟩ 9
      (.chunk [1]) [] (by decide)
  · exact C2_timeout_kills_logs_einval.2.2 "sleep 5" 1 1
      ⟨true, [], true, true, [Arrival.arrive 2000000 (.chunk [1])]⟩ 2000000
      (.chunk [1]) [] (by decide) rfl rfl rfl (by decide)

/-- C3: in every exit path of the bounded runner invocation — success,
timeout, read error, wait error, and even a NULL stream from the spawn —
the final `pclose` runs (closing the pipe and reaping the child) before
`ExecuteCommand` returns. -/
theorem C3_bounded_always_pcloses (c : String) (fd : Int) (t : Int)
    (env : ExecEnv) (ht : 0 < t) :
    (ExecuteCommand (some c) fd t env).pclosed = true := by
  have hnle : ¬ t ≤ 0 := by omega
  cases h2 : env.popen2Ok <;> cases h3 : env.filenoOk <;>
    simp [ExecuteCommand, hnle, h2, h3]

/-- Witness for C3 at concrete inputs (spawn failure included). -/
theorem C3_bounded_always_pcloses_witness :
    (ExecuteCommand (some "x") 1 2 ⟨true, [], true, true, []⟩).pclosed = true ∧
    (ExecuteCommand (some "x") 1 2 ⟨true, [], false, true, []⟩).pclosed = true := by
  exact ⟨C3_bounded_always_pcloses "x" 1 2 ⟨true, [], true, true, []⟩ (by decide),
         C3_bounded_always_pcloses "x" 1 2 ⟨true, [], false, true, []⟩ (by decide)⟩

/-- Helper for the deadline claim: across any arrival schedule, the total
time the select loop spends waiting never exceeds the budget it entered
with — the budget is decremented across iterations, never reset. -/
lemma boundedLoop_elapsed_le (fd : Int) (arr : List Arrival) :
    ∀ (rem : Nat) (st : BState),
      (boundedLoop fd rem st arr).elapsed ≤ st.elapsed + rem := by
  induction arr with
  | nil =>
      intro rem st
      simp [boundedLoop]
  | cons a rest ih =>
      intro rem st
      cases a with
      | selErr => simp [boundedLoop]
      | arrive d r =>
          by_cases hlt : rem < d
          · simp [boundedLoop, hlt]
          · cases r with
            | chunk data =>
                by_cases hd : 0 < data.length
                · simp only [boundedLoop, if_neg hlt, if_pos hd]
                  refine le_trans (ih (rem - d) _) ?_
                  show st.elapsed + d + (rem - d) ≤ st.elapsed + rem
                  omega
                · simp [boundedLoop, hlt, hd]
                  omega
            | rerr =>
                simp only [boundedLoop, if_neg hlt]
                refine le_trans (ih (rem - d) _) ?_
                show st.elapsed + d + (rem - d) ≤ st.elapsed + rem
                omega

/-- C4: the timeout deadline is fixed once at invocation start and bounds
the total wall-clock waiting time of the whole invocation.  First
conjunct: the loop's total waiting time never exceeds the budget it
entered with.  Second conjunct: a whole `ExecuteCommand` invocation never
waits longer than `timeout_seconds` seconds in total.  Third conjunct:
after a successful read-and-forward step the loop continues with the
budget reduced by the time already consumed — the remaining time is never
reset to the full timeout on a read. -/
theorem C4_deadline_fixed_at_start :
    (∀ (fd : Int) (rem : Nat) (st : BState) (arr : List Arrival),
        (boundedLoop fd rem st arr).elapsed ≤ st.elapsed + rem) ∧
    (∀ (c : String) (fd : Int) (t : Int) (env : ExecEnv),
        (ExecuteCommand (some c) fd t env).elapsed ≤ 1000000 * t.toNat) ∧
    (∀ (fd : Int) (rem : Nat) (st : BState) (d : Nat) (data : List Nat)
        (rest : List Arrival),
        ¬ rem < d → 0 < data.length →
        boundedLoop fd rem st (.arrive d (.chunk data) :: rest) =
          boundedLoop fd (rem - d)
            { st with elapsed := st.elapsed + d,
                      output := st.output ++ (if 0 ≤ fd then [data] else []) }
            rest) := by
  refine ⟨?_, ?_, ?_⟩
  · intro fd rem st arr
    exact boundedLoop_elapsed_le fd arr rem st
  · intro c fd t env
    by_cases ht : t ≤ 0
    · cases h1 : env.popenOk <;> simp [ExecuteCommand, ht, h1]
    · cases h2 : env.popen2Ok <;> cases h3 : env.filenoOk <;>
        simp [ExecuteCommand, ht, h2, h3]
      have h := boundedLoop_elapsed_le fd env.arrivals (1000000 * t.toNat)
        { result := ENOENT, output := [], killed := false, logged := false,
          timedOut := false, elapsed := 0 }
      simpa using h
  · intro fd rem st d data rest hlt hd
    simp [boundedLoop, hlt, hd]

/-- Witness for C4 at concrete inputs. -/
theorem C4_deadline_fixed_at_start_witness :
    (ExecuteCommand (some "x") 1 3
        ⟨true, [], true, true, [Arrival.arrive 500000 (.chunk [7]),
                                Arrival.arrive 9999999 (.chunk [9])]⟩).elapsed
      ≤ 3000000 ∧
    boundedLoop 1 3000000 ⟨ENOENT, [], false, false, false, 0⟩
        [Arrival.arrive 500000 (.chunk [7])] =
      boundedLoop 1 2500000 ⟨ENOENT, [[7]], false, false, false, 500000⟩ [] := by
  constructor
  · exact C4_deadline_fixed_at_start.2.1 "x" 1 3
      ⟨true, [], true, true, [Arrival.arrive 500000 (.chunk [7]),
                              Arrival.arrive 9999999 (.chunk [9])]⟩
  · exact C4_deadline_fixed_at_start.2.2 1 3000000
      ⟨ENOENT, [], false, false, false, 0⟩ 500000 [7] [] (by decide) (by decide)

/-- C5: for a dispatched variable that is registered with a non-null
command on a print request, the execution mode is selected solely by the
process-wide timeout: non-positive timeout takes the unbounded popen path,
positive timeout takes the bounded path with that value, and `ExecuteVar`
returns exactly the runner's result. -/
theorem C5_mode_selected_by_timeout (s : ExecVarsState) (hVar sig : Nat)
    (fd : Int) (env : ExecEnv) (v : ExecVar) (c : String)
    (hinv : hVar ≠ VAR_INVALID) (hfind : findExecVar s.pExecVars hVar = some v)
    (hcmd : v.pCmd = some c) (hsig : sig = SIG_VAR_PRINT) :
    ExecuteVar (some s) hVar sig fd env =
      ((ExecuteCommand (some c) fd s.timeout_seconds env).result,
        some (ExecuteCommand (some c) fd s.timeout_seconds env)) ∧
    ((ExecuteCommand (some c) fd s.timeout_seconds env).mode =
        some RunMode.unbounded ↔ s.timeout_seconds ≤ 0) ∧
    ((ExecuteCommand (some c) fd s.timeout_seconds env).mode =
        some RunMode.bounded ↔ 0 < s.timeout_seconds) := by
  refine ⟨?_, ?_, ?_⟩
  · simp [ExecuteVar, hinv, hfind, hcmd, hsig]
  · by_cases ht : s.timeout_seconds ≤ 0
    · cases h1 : env.popenOk <;> simp [ExecuteCommand, ht, h1]
    · cases h2 : env.popen2Ok <;> cases h3 : env.filenoOk <;>
        simp [ExecuteCommand, ht, h2, h3]
  · by_cases ht : s.timeout_seconds ≤ 0
    · cases h1 : env.popenOk <;> simp [ExecuteCommand, ht, h1]
    · cases h2 : env.popen2Ok <;> cases h3 : env.filenoOk <;>
        simp [ExecuteCommand, ht, h2, h3]
      all_goals omega

/-- Witness for C5 at concrete inputs (one unbounded, one bounded). -/
theorem C5_mode_selected_by_timeout_witness :
    (ExecuteVar (some ⟨false, 0, none, [⟨5, some "uptime"⟩]⟩) 5 SIG_VAR_PRINT 1
        ⟨true, [[9]], true, true, []⟩ =
      ((ExecuteCommand (some "uptime") 1 0 ⟨true, [[9]], true, true, []⟩).result,
        some (ExecuteCommand (some "uptime") 1 0 ⟨true, [[9]], true, true, []⟩)) ∧
      ((ExecuteCommand (some "uptime") 1 0 ⟨true, [[9]], true, true, []⟩).mode =
          some RunMode.unbounded ↔ (0 : Int) ≤ 0) ∧
      ((ExecuteCommand (some "uptime") 1 0 ⟨true, [[9]], true, true, []⟩).mode =
          some RunMode.bounded ↔ (0 : Int) < 0)) ∧
    (ExecuteVar (some ⟨false, 2, none, [⟨5, some "uptime"⟩]⟩) 5 SIG_VAR_PRINT 1
        ⟨true, [], true, true, []⟩ =
      ((ExecuteCommand (some "uptime") 1 2 ⟨true, [], true, true, []⟩).result,
        some (ExecuteCommand (some "uptime") 1 2 ⟨true, [], true, true, []⟩)) ∧
      ((ExecuteCommand (some "uptime") 1 2 ⟨true, [], true, true, []⟩).mode =
          some RunMode.unbounded ↔ (2 : Int) ≤ 0) ∧
      ((ExecuteCommand (some "uptime") 1 2 ⟨true, [], true, true, []⟩).mode =
          some RunMode.bounded ↔ (0 : Int) < 2)) := by
  constructor
  · exact C5_mode_selected_by_timeout ⟨false, 0, none, [⟨5, some "uptime"⟩]⟩ 5
      SIG_VAR_PRINT 1 ⟨true, [[9]], true, true, []⟩ ⟨5, some "uptime"⟩ "uptime"
      (by decide) rfl rfl rfl
  · exact C5_mode_selected_by_timeout ⟨false, 2, none, [⟨5, some "uptime"⟩]⟩ 5
      SIG_VAR_PRINT 1 ⟨true, [], true, true, []⟩ ⟨5, some "uptime"⟩ "uptime"
      (by decide) rfl rfl rfl

/-- C6: for a variable id that matches no registered binding, dispatch
with a valid state and a valid handle returns ENOENT and never invokes
`ExecuteCommand` — no process is spawned and no bytes are written. -/
theorem C6_unregistered_enoent_no_spawn (s : ExecVarsState) (hVar sig : Nat)
    (fd : Int) (env : ExecEnv) (hinv : hVar ≠ VAR_INVALID)
    (hfind : findExecVar s.pExecVars hVar = none) :
    ExecuteVar (some s) hVar sig fd env = (ENOENT, none) := by
  simp [ExecuteVar, hinv, hfind]

/-- Witness for C6 at a concrete input. -/
theorem C6_unregistered_enoent_no_spawn_witness :
    ExecuteVar (some ⟨false, 0, none, [⟨5, some "uptime"⟩]⟩) 7 SIG_VAR_PRINT 1
      ⟨true, [], true, true, []⟩ = (ENOENT, none) := by
  exact C6_unregistered_enoent_no_spawn ⟨false, 0, none, [⟨5, some "uptime"⟩]⟩ 7
    SIG_VAR_PRINT 1 ⟨true, [], true, true, []⟩ (by decide) rfl

/-- C7 counterexample: a registered binding whose command is the empty
string "" is NOT answered with ENOTSUP — the empty command is passed to
`ExecuteCommand` and executed (here via the unbounded path, returning
EOK), refuting the claim that an empty command string is rejected. -/
theorem C7_empty_command_executed_cex :
    (ExecuteVar (some ⟨false, 0, none, [⟨5, some ""⟩]⟩) 5 SIG_VAR_PRINT 1
        ⟨true, [], true, true, []⟩).1 = EOK ∧
    (ExecuteVar (some ⟨false, 0, none, [⟨5, some ""⟩]⟩) 5 SIG_VAR_PRINT 1
        ⟨true, [], true, true, []⟩).2 ≠ none ∧
    EOK ≠ ENOTSUP := by
  refine ⟨rfl, ?_, by decide⟩
  intro hc
  simp [ExecuteVar, ExecuteCommand, SIG_VAR_PRINT, VAR_INVALID, findExecVar] at hc

/-- C7 amended: dispatch returns ENOTSUP (without invoking the runner)
exactly for a registered binding whose command pointer is NULL; a binding
whose command is the empty string is passed to `ExecuteCommand` and
executed like any other command. -/
theorem C7_null_command_enotsup :
    (∀ (s : ExecVarsState) (hVar sig : Nat) (fd : Int) (env : ExecEnv)
        (v : ExecVar), hVar ≠ VAR_INVALID →
        findExecVar s.pExecVars hVar = some v → v.pCmd = none →
        ExecuteVar (some s) hVar sig fd env = (ENOTSUP, none)) ∧
    (∀ (s : ExecVarsState) (hVar sig : Nat) (fd : Int) (env : ExecEnv)
        (v : ExecVar), hVar ≠ VAR_INVALID →
        findExecVar s.pExecVars hVar = some v → v.pCmd = some "" →
        sig = SIG_VAR_PRINT →
        ExecuteVar (some s) hVar sig fd env =
          ((ExecuteCommand (some "") fd s.timeout_seconds env).result,
            some (ExecuteCommand (some "") fd s.timeout_seconds env))) := by
  constructor
  · intro s hVar sig fd env v hinv hfind hcmd
    simp [ExecuteVar, hinv, hfind, hcmd]
  · intro s hVar sig fd env v hinv hfind hcmd hsig
    simp [ExecuteVar, hinv, hfind, hcmd, hsig]

/-- Witness for the amended C7 at concrete inputs: one binding with a
NULL command, one binding with an empty-string command. -/
theorem C7_null_command_enotsup_witness :
    ExecuteVar (some ⟨false, 0, none, [⟨5, none⟩]⟩) 5 SIG_VAR_PRINT 1
      ⟨true, [], true, true, []⟩ = (ENOTSUP, none) ∧
    ExecuteVar (some ⟨false, 0, none, [⟨5, some ""⟩]⟩) 5 SIG_VAR_PRINT 1
      ⟨true, [], true, true, []⟩ =
      ((ExecuteCommand (some "") 1 0 ⟨true, [], true, true, []⟩).result,
        some (ExecuteCommand (some "") 1 0 ⟨true, [], true, true, []⟩)) := by
  constructor
  · exact C7_null_command_enotsup.1 ⟨false, 0, none, [⟨5, none⟩]⟩ 5
      SIG_VAR_PRINT 1 ⟨true, [], true, true, []⟩ ⟨5, none⟩ (by decide) rfl rfl
  · exact C7_null_command_enotsup.2 ⟨false, 0, none, [⟨5, some ""⟩]⟩ 5
      SIG_VAR_PRINT 1 ⟨true, [], true, true, []⟩ ⟨5, some ""⟩ (by decide) rfl
      rfl rfl

/-- C8: a registered command that exits immediately producing no output
yields EOK with zero bytes written to the sink, in both the unbounded
path (first `fread` returns 0) and the bounded path (`select` reports
readable within the deadline and `fread` returns 0). -/
theorem C8_no_output_success :
    (∀ (c : String) (fd : Int) (t : Int) (env : ExecEnv),
        t ≤ 0 → env.popenOk = true → env.uStream = [] →
        (ExecuteCommand (some c) fd t env).result = EOK ∧
        (ExecuteCommand (some c) fd t env).output = []) ∧
    (∀ (c : String) (fd : Int) (t : Int) (env : ExecEnv) (d : Nat),
        0 < t → env.popen2Ok = true → env.filenoOk = true →
        env.arrivals = [.arrive d (.chunk [])] → ¬ 1000000 * t.toNat < d →
        (ExecuteCommand (some c) fd t env).result = EOK ∧
        (ExecuteCommand (some c) fd t env).output = []) := by
  constructor
  · intro c fd t env ht h1 hs
    simp [ExecuteCommand, ht, h1, hs, unboundedReads]
  · intro c fd t env d ht h2 h3 harr hd
    have hnle : ¬ t ≤ 0 := by omega
    simp [ExecuteCommand, hnle, h2, h3, harr, boundedLoop, hd]

/-- Witness for C8 at concrete inputs (both paths). -/
theorem C8_no_output_success_witness :
    ((ExecuteCommand (some "true") 1 0 ⟨true, [], true, true, []⟩).result = EOK ∧
      (ExecuteCommand (some "true") 1 0 ⟨true, [], true, true, []⟩).output = []) ∧
    ((ExecuteCommand (some "true") 1 1
        ⟨true, [], true, true, [Arrival.arrive 100 (.chunk [])]⟩).result = EOK ∧
      (ExecuteCommand (some "true") 1 1
        ⟨true, [], true, true, [Arrival.arrive 100 (.chunk [])]⟩).output = []) := by
  constructor
  · exact C8_no_output_success.1 "true" 1 0 ⟨true, [], true, true, []⟩
      (by decide) rfl rfl
  · exact C8_no_output_success.2 "true" 1 1
      ⟨true, [], true, true, [Arrival.arrive 100 (.chunk [])]⟩ 100
      (by decide) rfl rfl rfl (by decide)

/-- C9 counterexample: with three argv entries and no `-f`, the program
does not exit (it proceeds with a NULL file name and no usage message);
and with `-h` present the program prints usage but proceeds instead of
exiting with status 0.  Both refute the claim that a missing `-f` causes
a usage message and non-zero exit and that `-h` exits 0. -/
theorem C9_no_exit_on_missing_f_or_h_cex :
    mainStartup ["execvars", "-t", "5"] =
      .proceeded ⟨false, 5, none, []⟩ false ∧
    mainStartup ["execvars", "-h", "-v"] =
      .proceeded ⟨true, 0, none, []⟩ true := by
  constructor
  · rfl
  · rfl

/-- Helper for the amended startup claim: once usage has been printed,
later options never clear the flag. -/
lemma processOpts_usage_stays (opts : List CliOpt) :
    ∀ (s : ExecVarsState), (processOpts opts s true).2 = true := by
  induction opts with
  | nil => intro s; rfl
  | cons o rest ih =>
      intro s
      cases o <;> simp [processOpts, ih]

/-- C9 amended: the program prints usage and exits with status 1 exactly
when fewer than three argv entries are given (fewer than two arguments
after the program name); with three or more entries it always proceeds —
option processing never exits, whether or not `-f` was supplied — and a
`-h` option makes `ProcessOptions` print the usage message without
exiting. -/
theorem C9_exit_only_when_argc_lt_3 :
    (∀ argv : List String, argv ≠ [] → argv.length < 3 →
        mainStartup argv = .exited 1 true) ∧
    (∀ argv : List String, ¬ argv.length < 3 →
        ∃ s u, mainStartup argv = .proceeded s u) ∧
    (∀ (opts : List CliOpt) (s : ExecVarsState) (u : Bool),
        (processOpts (.hOpt :: opts) s u).2 = true) := by
  refine ⟨?_, ?_, ?_⟩
  · intro argv hne hlt
    simp [mainStartup, hlt, hne]
  · intro argv hge
    refine ⟨(ProcessOptions argv.tail zeroState).1,
            (ProcessOptions argv.tail zeroState).2, ?_⟩
    simp [mainStartup, hge]
  · intro opts s u
    simpa [processOpts] using processOpts_usage_stays opts s

/-- Witness for the amended C9 at concrete inputs. -/
theorem C9_exit_only_when_argc_lt_3_witness :
    mainStartup ["execvars", "-f"] = .exited 1 true ∧
    (∃ s u, mainStartup ["execvars", "-h", "-v"] = .proceeded s u) ∧
    (processOpts [.hOpt, .vOpt] zeroState false).2 = true := by
  refine ⟨?_, ?_, ?_⟩
  · exact C9_exit_only_when_argc_lt_3.1 ["execvars", "-f"] (by decide) (by decide)
  · exact C9_exit_only_when_argc_lt_3.2.1 ["execvars", "-h", "-v"] (by decide)
  · exact C9_exit_only_when_argc_lt_3.2.2 [.vOpt] zeroState false

/-- C10: dispatch distinguishes invalid arguments from unknown variables:
a NULL state pointer or a `VAR_INVALID` handle makes `ExecuteVar` return
EINVAL immediately, with no registry search observable effect and no
`ExecuteCommand` invocation; EINVAL is distinct from ENOENT. -/
theorem C10_invalid_args_einval :
    (∀ (hVar sig : Nat) (fd : Int) (env : ExecEnv),
        ExecuteVar none hVar sig fd env = (EINVAL, none)) ∧
    (∀ (s : ExecVarsState) (sig : Nat) (fd : Int) (env : ExecEnv),
        ExecuteVar (some s) VAR_INVALID sig fd env = (EINVAL, none)) ∧
    EINVAL ≠ ENOENT := by
  refine ⟨fun _ _ _ _ => rfl, fun s _ _ _ => ?_, by decide⟩
  simp [ExecuteVar]
